import Mathlib

/-!
Shallow embedding of the notebook
examples/05_Scalable_GP_Regression_Multidimensional/KISSGP_Additive_Regression_CUDA.ipynb.

The notebook builds a 100x100 training grid on the unit square, fits a GP
regression model (constant mean, RBF kernel wrapped in an additive
grid-interpolation kernel) with 20 Adam iterations at learning rate 0.2,
and evaluates the predictive mean on a 10x10 test grid.

Grid coordinates are embedded as exact rationals; target values and module
outputs are real numbers.  The internals of the external libraries (torch,
gpytorch) are not part of this repository: the values their modules produce
(mean module, kernel modules, likelihood) are abstracted as function
parameters, while everything the notebook itself writes (grid construction,
target formula, module wiring, loop structure, error flow) is embedded
faithfully from the source.
-/

/-! ### Cell 2: training data generation -/

/-- Value of the notebook variable n = 100 in the training-data cell. -/
def nTrain : Nat := 100

/-- Training inputs: a flat tensor of 100*100 rows; the source fills row
i * n + j with (i/(n-1), j/(n-1)), so row k holds
((k / n)/(n-1), (k % n)/(n-1)). -/
def train_x (k : Fin (nTrain * nTrain)) : ℚ × ℚ :=
  ((↑(k.val / nTrain) : ℚ) / (nTrain - 1), (↑(k.val % nTrain) : ℚ) / (nTrain - 1))

/-- Training targets, from the source expression
(torch.sin(train_x[:, 0]) + torch.cos(train_x[:, 1])) * (2 * math.pi). -/
noncomputable def train_y (k : Fin (nTrain * nTrain)) : ℝ :=
  (Real.sin ((train_x k).1 : ℝ) + Real.cos ((train_x k).2 : ℝ)) * (2 * Real.pi)

/-! ### Cell 3: the model class -/

/-- Mean modules the notebook instantiates (gpytorch.means.ConstantMean). -/
inductive MeanModule where
  | ConstantMean
deriving DecidableEq

/-- Kernel modules the notebook instantiates: the RBF base kernel and the
additive grid-interpolation wrapper with its constructor arguments
(grid_size, grid_bounds, n_components). -/
inductive KernelModule where
  | RBFKernel
  | AdditiveGridInterpolationKernel (base : KernelModule) (grid_size : Nat)
      (grid_bounds : List (ℚ × ℚ)) (n_components : Nat)
deriving DecidableEq

/-- Grid bounds declared to a kernel module at construction
(the RBF base kernel declares none). -/
def gridBoundsOf : KernelModule → List (ℚ × ℚ)
  | KernelModule.RBFKernel => []
  | KernelModule.AdditiveGridInterpolationKernel _ _ gb _ => gb

/-- The distribution object returned by the forward method
(gpytorch.random_variables.GaussianRandomVariable): a mean vector and a
covariance matrix over an index type. -/
structure GaussianRandomVariable (ι : Type) where
  mean : ι → ℝ
  covar : ι → ι → ℝ

/-- The state of a GPRegressionModel instance: the modules wired together in
__init__ plus the registered log_outputscale parameter. -/
structure GPRegressionModel where
  mean_module : MeanModule
  base_covar_module : KernelModule
  covar_module : KernelModule
  log_outputscale : ℝ

/-- The model produced by GPRegressionModel.__init__: a ConstantMean mean
module, an RBFKernel base kernel, an AdditiveGridInterpolationKernel over
that base kernel with grid_size=400, grid_bounds=[(0, 1)], n_components=2,
and log_outputscale initialised to 0 (nn.Parameter(torch.Tensor([0]))). -/
def gpModelInit : GPRegressionModel :=
  { mean_module := MeanModule.ConstantMean
  , base_covar_module := KernelModule.RBFKernel
  , covar_module := KernelModule.AdditiveGridInterpolationKernel
      KernelModule.RBFKernel 400 [(0, 1)] 2
  , log_outputscale := 0 }

/-- The forward method: mean_x = mean_module(x), covar_x = covar_module(x)
scaled by log_outputscale.exp(), returned as a GaussianRandomVariable.
The library-internal evaluation of the mean and kernel modules is abstracted
by the parameters meanSem and kernelSem. -/
noncomputable def GPRegressionModel.forward (m : GPRegressionModel)
    (meanSem : MeanModule → ℚ × ℚ → ℝ)
    (kernelSem : KernelModule → ℚ × ℚ → ℚ × ℚ → ℝ)
    {ι : Type} (xs : ι → ℚ × ℚ) : GaussianRandomVariable ι :=
  { mean := fun i => meanSem m.mean_module (xs i)
  , covar := fun i j =>
      kernelSem m.covar_module (xs i) (xs j) * Real.exp m.log_outputscale }

/-! ### Cell 4: the training loop -/

/-- Number of optimizer iterations, from num_iter = 20. -/
def num_iter : Nat := 20

/-- Optimizer configuration of the notebook: torch.optim.Adam over
model.parameters() with lr=0.2. -/
structure OptimizerConfig where
  isAdam : Bool
  lr : ℚ

/-- The pre-built optimizer of the notebook: Adam with learning rate 0.2. -/
def notebookOptimizer : OptimizerConfig := { isAdam := true, lr := 0.2 }

/-- The loss computed each iteration from the marginal log likelihood value:
loss = -mll(output, train_y). -/
def lossOf (mllValue : ℝ) : ℝ := -mllValue

/-- The operations one iteration of the training loop performs. -/
inductive TrainAction where
  | zeroGrad
  | forwardPass
  | computeLoss
  | backwardPass
  | printLoss
  | optimizerStep
deriving DecidableEq

/-- The body of one training-loop iteration, in source order:
optimizer.zero_grad(); output = model(train_x); loss = -mll(output, train_y);
loss.backward(); print(...); optimizer.step(). -/
def trainIterationActions : List TrainAction :=
  [TrainAction.zeroGrad, TrainAction.forwardPass, TrainAction.computeLoss,
   TrainAction.backwardPass, TrainAction.printLoss, TrainAction.optimizerStep]

/-- The trace of operations of the whole loop for i in range(num_iter). -/
def trainingTrace : List TrainAction :=
  (List.range num_iter).flatMap fun _ => trainIterationActions

/-- The 20 loss values recorded in the notebook's stored output for the
training cell (Iter 1/20 through Iter 20/20). -/
def printedLosses : List ℚ :=
  [0.924, 0.825, 0.726, 0.626, 0.527, 0.429, 0.330, 0.230, 0.131, 0.032,
   -0.066, -0.166, -0.263, -0.362, -0.460, -0.559, -0.657, -0.753, -0.849,
   -0.945]

/-! ### Cell 5: evaluation -/

/-- Value of the notebook variable n = 10 in the evaluation cell. -/
def nTest : Nat := 10

/-- Test inputs: a flat tensor of 10*10 rows; the source fills row i * n + j
with (i/(n-1), j/(n-1)). -/
def test_x (k : Fin (nTest * nTest)) : ℚ × ℚ :=
  ((↑(k.val / nTest) : ℚ) / (nTest - 1), (↑(k.val % nTest) : ℚ) / (nTest - 1))

/-- Flat index of entry (i, j) after .view(n, n): row-major i * n + j. -/
def flatIdx (i j : Fin nTest) : Fin (nTest * nTest) :=
  ⟨i.val * nTest + j.val, by
    have hi := i.isLt
    have hj := j.isLt
    simp only [nTest] at *
    omega⟩

/-- The predictive distribution observed_pred = likelihood(model(test_x)).
The likelihood module is external library code, abstracted by lik. -/
noncomputable def observed_pred (m : GPRegressionModel)
    (meanSem : MeanModule → ℚ × ℚ → ℝ)
    (kernelSem : KernelModule → ℚ × ℚ → ℚ × ℚ → ℝ)
    (lik : GaussianRandomVariable (Fin (nTest * nTest)) →
           GaussianRandomVariable (Fin (nTest * nTest))) :
    GaussianRandomVariable (Fin (nTest * nTest)) :=
  lik (m.forward meanSem kernelSem test_x)

/-- pred_labels = observed_pred.mean().view(n, n): entry (i, j) is the mean
of the predictive distribution at flat index i * n + j. -/
noncomputable def pred_labels (m : GPRegressionModel)
    (meanSem : MeanModule → ℚ × ℚ → ℝ)
    (kernelSem : KernelModule → ℚ × ℚ → ℚ × ℚ → ℝ)
    (lik : GaussianRandomVariable (Fin (nTest * nTest)) →
           GaussianRandomVariable (Fin (nTest * nTest)))
    (i j : Fin nTest) : ℝ :=
  (observed_pred m meanSem kernelSem lik).mean (flatIdx i j)

/-- True test values, from the source expression
(torch.sin(test_x[:, 0]) + torch.cos(test_x[:, 1])) * (2 * math.pi). -/
noncomputable def test_y_actual (k : Fin (nTest * nTest)) : ℝ :=
  (Real.sin ((test_x k).1 : ℝ) + Real.cos ((test_x k).2 : ℝ)) * (2 * Real.pi)

/-- test_y_actual reshaped to the n x n grid, matching .reshape(n, n). -/
noncomputable def test_y_grid (i j : Fin nTest) : ℝ :=
  test_y_actual (flatIdx i j)

/-- delta_y = numpy.absolute(pred_labels - test_y_actual), elementwise. -/
noncomputable def delta_y (m : GPRegressionModel)
    (meanSem : MeanModule → ℚ × ℚ → ℝ)
    (kernelSem : KernelModule → ℚ × ℚ → ℚ × ℚ → ℝ)
    (lik : GaussianRandomVariable (Fin (nTest * nTest)) →
           GaussianRandomVariable (Fin (nTest * nTest)))
    (i j : Fin nTest) : ℝ :=
  |pred_labels m meanSem kernelSem lik i j - test_y_grid i j|

/-- The analytic target formula y = (sin x0 + cos x1) * 2 pi as a single
function, to state that the training targets and the true test values apply
one and the same formula to their respective inputs. -/
noncomputable def f_true (p : ℚ × ℚ) : ℝ :=
  (Real.sin (p.1 : ℝ) + Real.cos (p.2 : ℝ)) * (2 * Real.pi)

/-! ### Error flow of the notebook

The notebook contains no try/except: each cell is a straight-line sequence
of library calls.  Fallible library calls are embedded as functions into
Except; the notebook's control flow is their sequential composition. -/

/-- Run a list of fallible stages in order, stopping at the first error.
This is the only composition the notebook applies to library calls. -/
def runStages {σ ε : Type} : List (σ → Except ε σ) → σ → Except ε σ
  | [], s => Except.ok s
  | f :: fs, s =>
    match f s with
    | Except.ok s2 => runStages fs s2
    | Except.error e => Except.error e

/-- The notebook's cells as stages: data generation, model and likelihood
construction, num_iter training iterations, and the evaluation cell. -/
def notebookStages {σ ε : Type} (dataGen modelInit trainStep evalCell :
    σ → Except ε σ) : List (σ → Except ε σ) :=
  [dataGen, modelInit] ++ List.replicate num_iter trainStep ++ [evalCell]

/-- The whole notebook run: the stages composed sequentially with no
handler around any of them. -/
def notebookRun {σ ε : Type} (dataGen modelInit trainStep evalCell :
    σ → Except ε σ) (s : σ) : Except ε σ :=
  runStages (notebookStages dataGen modelInit trainStep evalCell) s

/-! ### Helper lemmas -/

/-- Every coordinate of every training input lies in [0, 1]. -/
lemma train_x_in_unit (k : Fin (nTrain * nTrain)) :
    0 ≤ (train_x k).1 ∧ (train_x k).1 ≤ 1 ∧
    0 ≤ (train_x k).2 ∧ (train_x k).2 ≤ 1 := by
  have hk : k.val < 10000 := by simpa [nTrain] using k.isLt
  have h1 : k.val / 100 ≤ 99 := by omega
  have h2 : k.val % 100 ≤ 99 := by omega
  simp only [train_x, nTrain]
  norm_num
  refine ⟨div_nonneg (Nat.cast_nonneg _) (by norm_num), ?_,
          div_nonneg (Nat.cast_nonneg _) (by norm_num), ?_⟩ <;>
    rw [div_le_one (by norm_num)] <;> exact_mod_cast by omega

/-- Every coordinate of every test input lies in [0, 1]. -/
lemma test_x_in_unit (k : Fin (nTest * nTest)) :
    0 ≤ (test_x k).1 ∧ (test_x k).1 ≤ 1 ∧
    0 ≤ (test_x k).2 ∧ (test_x k).2 ≤ 1 := by
  have hk : k.val < 100 := by simpa [nTest] using k.isLt
  have h1 : k.val / 10 ≤ 9 := by omega
  have h2 : k.val % 10 ≤ 9 := by omega
  simp only [test_x, nTest]
  norm_num
  refine ⟨div_nonneg (Nat.cast_nonneg _) (by norm_num), ?_,
          div_nonneg (Nat.cast_nonneg _) (by norm_num), ?_⟩ <;>
    rw [div_le_one (by norm_num)] <;> exact_mod_cast by omega

/-- Running the concatenation of two stage lists runs the first and, only on
success, continues with the second from the reached state. -/
lemma runStages_append {σ ε : Type} (xs ys : List (σ → Except ε σ)) (s : σ) :
    runStages (xs ++ ys) s =
      match runStages xs s with
      | Except.ok s2 => runStages ys s2
      | Except.error e => Except.error e := by
  induction xs generalizing s with
  | nil => simp [runStages]
  | cons f fs ih =>
    simp only [List.cons_append, runStages]
    cases f s with
    | ok s2 => exact ih s2
    | error e => rfl

/-! ### Claim theorems -/

/-- C1: the training loss recorded at each of the 20 printed iterations is
monotonically non-increasing: the list of printed losses has 20 entries and
each adjacent pair satisfies loss(i+1) <= loss(i). -/
theorem printed_losses_monotone :
    printedLosses.length = 20 ∧ printedLosses.Chain' (fun a b => b ≤ a) := by
  constructor
  · rfl
  · simp only [printedLosses, List.chain'_cons, List.chain'_singleton]
    norm_num

/-- C2: the training loop runs exactly 20 iterations, and each iteration
performs, in source order: zeroing gradients, a forward pass, computing the
loss as the negated marginal log likelihood, backpropagation, printing the
loss, and one step of the pre-built Adam optimizer with learning rate 0.2. -/
theorem training_loop_structure :
    num_iter = 20 ∧
    notebookOptimizer.isAdam = true ∧
    notebookOptimizer.lr = 1 / 5 ∧
    (∀ v : ℝ, lossOf v = -v) ∧
    trainingTrace.length = num_iter * 6 ∧
    (∀ i : Fin num_iter,
      (trainingTrace.drop (6 * i.val)).take 6 = trainIterationActions) := by
  refine ⟨rfl, rfl, by norm_num [notebookOptimizer], fun _ => rfl, by decide,
    by decide⟩

/-- C3: the constructed model wires together a constant mean module, an RBF
base kernel, and an additive grid-interpolation wrapper over that base
kernel with n_components = 2; and for every input the forward method returns
a distribution whose mean is mean_module(x) and whose covariance is
covar_module(x) scaled by exp(log_outputscale). -/
theorem model_wiring_and_forward :
    gpModelInit.mean_module = MeanModule.ConstantMean ∧
    gpModelInit.base_covar_module = KernelModule.RBFKernel ∧
    gpModelInit.covar_module =
      KernelModule.AdditiveGridInterpolationKernel gpModelInit.base_covar_module
        400 [(0, 1)] 2 ∧
    (∀ (m : GPRegressionModel) (meanSem : MeanModule → ℚ × ℚ → ℝ)
        (kernelSem : KernelModule → ℚ × ℚ → ℚ × ℚ → ℝ)
        (ι : Type) (xs : ι → ℚ × ℚ) (i j : ι),
      (m.forward meanSem kernelSem xs).mean i = meanSem m.mean_module (xs i) ∧
      (m.forward meanSem kernelSem xs).covar i j =
        kernelSem m.covar_module (xs i) (xs j) * Real.exp m.log_outputscale) :=
  ⟨rfl, rfl, rfl, fun _ _ _ _ _ _ _ => ⟨rfl, rfl⟩⟩

/-- C8: both the training targets and the true test values apply one and the
same analytic formula y = (sin x0 + cos x1) * 2 pi to their inputs. -/
theorem target_formula_shared :
    (∀ k, train_y k = f_true (train_x k)) ∧
    (∀ k, test_y_actual k = f_true (test_x k)) :=
  ⟨fun _ => rfl, fun _ => rfl⟩

/-- C10: for every real value of log_outputscale the scaling factor
exp(log_outputscale) applied in forward is strictly positive, so scaling
preserves zeroness and sign of every covariance entry; the parameter is
initialised to 0. -/
theorem outputscale_scaling_positive :
    ∀ (m : GPRegressionModel) (meanSem : MeanModule → ℚ × ℚ → ℝ)
      (kernelSem : KernelModule → ℚ × ℚ → ℚ × ℚ → ℝ)
      (ι : Type) (xs : ι → ℚ × ℚ) (i j : ι),
      0 < Real.exp m.log_outputscale ∧
      gpModelInit.log_outputscale = 0 ∧
      ((m.forward meanSem kernelSem xs).covar i j = 0 ↔
        kernelSem m.covar_module (xs i) (xs j) = 0) ∧
      (0 < (m.forward meanSem kernelSem xs).covar i j ↔
        0 < kernelSem m.covar_module (xs i) (xs j)) ∧
      ((m.forward meanSem kernelSem xs).covar i j < 0 ↔
        kernelSem m.covar_module (xs i) (xs j) < 0) := by
  intro m meanSem kernelSem ι xs i j
  have he := Real.exp_pos m.log_outputscale
  refine ⟨he, rfl, ?_, ?_, ?_⟩
  · simp only [GPRegressionModel.forward, mul_eq_zero]
    simp [Real.exp_ne_zero]
  · simp only [GPRegressionModel.forward]
    exact mul_pos_iff_of_pos_right he
  · simp only [GPRegressionModel.forward]
    constructor
    · intro h
      by_contra hnot
      push_neg at hnot
      nlinarith
    · intro h
      nlinarith

/-- C4 counterexample: the claim that no test point equals any training
point is false at the concrete input (i, j) = (0, 0): test point 0 of the
10x10 grid equals training point 0 of the 100x100 grid (both are (0, 0)). -/
theorem test_point_equals_train_point :
    test_x ⟨0, by norm_num [nTest]⟩ = train_x ⟨0, by norm_num [nTrain]⟩ := by
  norm_num [test_x, train_x, nTest, nTrain]

/-- C4 amended: the test grid is not held out from the training grid; every
point of the 10x10 test grid equals some point of the 100x100 training grid,
because i/9 = (11 i)/99. -/
theorem test_grid_subset_of_train_grid :
    ∀ kt : Fin (nTest * nTest), ∃ ks : Fin (nTrain * nTrain),
      test_x kt = train_x ks := by
  intro kt
  have hk : kt.val < 100 := by simpa [nTest] using kt.isLt
  refine ⟨⟨11 * (kt.val / 10) * 100 + 11 * (kt.val % 10), ?_⟩, ?_⟩
  · simp only [nTrain]
    omega
  · have h1 : (11 * (kt.val / 10) * 100 + 11 * (kt.val % 10)) / 100 =
        11 * (kt.val / 10) := by omega
    have h2 : (11 * (kt.val / 10) * 100 + 11 * (kt.val % 10)) % 100 =
        11 * (kt.val % 10) := by omega
    simp only [test_x, train_x, nTest, nTrain, h1, h2, Prod.mk.injEq]
    norm_num
    constructor <;>
      · rw [div_eq_div_iff (by norm_num) (by norm_num)]
        push_cast
        ring

/-- C5: the training inputs form 100^2 = 10000 rows of 2-dimensional
coordinates, the target tensor has exactly one entry per input row, and
every entry of both tensors is finite, witnessed by the explicit bounds
|coordinate| <= 1 and |target| <= 4 pi. -/
theorem training_data_shape_and_finite :
    (List.ofFn train_x).length = 100 ^ 2 ∧
    (List.ofFn train_y).length = (List.ofFn train_x).length ∧
    ∀ k, |(train_x k).1| ≤ 1 ∧ |(train_x k).2| ≤ 1 ∧
      |train_y k| ≤ 4 * Real.pi := by
  refine ⟨by rw [List.length_ofFn]; norm_num [nTrain],
    by rw [List.length_ofFn, List.length_ofFn], fun k => ?_⟩
  obtain ⟨h1, h2, h3, h4⟩ := train_x_in_unit k
  refine ⟨abs_le.mpr ⟨by linarith, h2⟩, abs_le.mpr ⟨by linarith, h4⟩, ?_⟩
  have hs : |Real.sin ((train_x k).1 : ℝ) + Real.cos ((train_x k).2 : ℝ)| ≤ 2 :=
    calc |Real.sin ((train_x k).1 : ℝ) + Real.cos ((train_x k).2 : ℝ)|
        ≤ |Real.sin ((train_x k).1 : ℝ)| + |Real.cos ((train_x k).2 : ℝ)| :=
          abs_add _ _
      _ ≤ 1 + 1 := add_le_add (Real.abs_sin_le_one _) (Real.abs_cos_le_one _)
      _ = 2 := by norm_num
  calc |train_y k|
      = |Real.sin ((train_x k).1 : ℝ) + Real.cos ((train_x k).2 : ℝ)| *
        (2 * Real.pi) := by
        rw [train_y, abs_mul,
          abs_of_pos (show (0 : ℝ) < 2 * Real.pi by positivity)]
    _ ≤ 2 * (2 * Real.pi) := mul_le_mul_of_nonneg_right hs (by positivity)
    _ = 4 * Real.pi := by ring

/-- C7: the reported absolute error surface equals, elementwise over the
10x10 test grid, the absolute difference between the predictive mean
obtained by passing the test inputs through the model and then the
likelihood, and the true test values from the analytic formula at the same
flat index i * 10 + j. -/
theorem delta_y_is_elementwise_abs_error :
    ∀ (m : GPRegressionModel) (meanSem : MeanModule → ℚ × ℚ → ℝ)
      (kernelSem : KernelModule → ℚ × ℚ → ℚ × ℚ → ℝ)
      (lik : GaussianRandomVariable (Fin (nTest * nTest)) →
             GaussianRandomVariable (Fin (nTest * nTest)))
      (i j : Fin nTest),
      (flatIdx i j).val = i.val * nTest + j.val ∧
      delta_y m meanSem kernelSem lik i j =
        |(lik (m.forward meanSem kernelSem test_x)).mean (flatIdx i j) -
          (Real.sin ((test_x (flatIdx i j)).1 : ℝ) +
            Real.cos ((test_x (flatIdx i j)).2 : ℝ)) * (2 * Real.pi)| :=
  fun _ _ _ _ _ _ => ⟨rfl, rfl⟩

/-- C9: every coordinate of every training input and every test input lies
in [0, 1], both endpoints are attained, and (0, 1) is exactly the grid
bound declared to the additive grid-interpolation kernel at construction. -/
theorem inputs_within_declared_grid_bounds :
    gridBoundsOf gpModelInit.covar_module = [((0 : ℚ), 1)] ∧
    (∀ k, 0 ≤ (train_x k).1 ∧ (train_x k).1 ≤ 1 ∧
      0 ≤ (train_x k).2 ∧ (train_x k).2 ≤ 1) ∧
    (∀ k, 0 ≤ (test_x k).1 ∧ (test_x k).1 ≤ 1 ∧
      0 ≤ (test_x k).2 ∧ (test_x k).2 ≤ 1) ∧
    train_x ⟨0, by norm_num [nTrain]⟩ = (0, 0) ∧
    train_x ⟨nTrain * nTrain - 1, by norm_num [nTrain]⟩ = (1, 1) ∧
    test_x ⟨0, by norm_num [nTest]⟩ = (0, 0) ∧
    test_x ⟨nTest * nTest - 1, by norm_num [nTest]⟩ = (1, 1) := by
  refine ⟨rfl, train_x_in_unit, test_x_in_unit, ?_, ?_, ?_, ?_⟩ <;>
    norm_num [train_x, test_x, nTrain, nTest]

/-- C6: the notebook composes its stages with no handler, so an error
raised by any library stage propagates unchanged to the result of the whole
run: if the stages before it succeed and a stage fails with error e, the
notebook run returns exactly that error. -/
theorem notebook_error_propagation {σ ε : Type}
    (dataGen modelInit trainStep evalCell : σ → Except ε σ)
    (pre : List (σ → Except ε σ)) (f : σ → Except ε σ)
    (post : List (σ → Except ε σ)) (s s2 : σ) (e : ε)
    (hsplit : notebookStages dataGen modelInit trainStep evalCell =
      pre ++ f :: post)
    (hpre : runStages pre s = Except.ok s2)
    (hf : f s2 = Except.error e) :
    notebookRun dataGen modelInit trainStep evalCell s = Except.error e := by
  rw [notebookRun, hsplit, runStages_append, hpre]
  simp [runStages, hf]

/-- Concrete fallible stage used to witness error propagation: data
generation succeeding. -/
def dataGenW : Nat → Except Nat Nat := fun s => Except.ok (s + 1)

/-- Concrete fallible stage used to witness error propagation: model
construction raising error 7. -/
def modelInitW : Nat → Except Nat Nat := fun _ => Except.error 7

/-- Concrete fallible stage used to witness error propagation: a training
iteration succeeding. -/
def trainStepW : Nat → Except Nat Nat := fun s => Except.ok s

/-- Concrete fallible stage used to witness error propagation: the
evaluation cell succeeding. -/
def evalCellW : Nat → Except Nat Nat := fun s => Except.ok s

/-- Witness for C6: with concrete stages where model construction raises
error 7, the notebook run returns exactly that error. -/
theorem notebook_error_propagation_witness :
    notebookRun dataGenW modelInitW trainStepW evalCellW 0 = Except.error 7 :=
  notebook_error_propagation dataGenW modelInitW trainStepW evalCellW
    [dataGenW] modelInitW (List.replicate num_iter trainStepW ++ [evalCellW])
    0 1 7 rfl rfl rfl
